import Mathlib

/-!
Verification of the mobile app's Session Client and dashboard screen.

This file gives a shallow embedding of the client-side authentication
context (`src/frontend/contexts/AuthContext.tsx`) and of the dashboard
screen (the `DashboardScreen` component), and proves the specified
properties about them.

Modelling conventions:
* The device secure store (`expo-secure-store`) is a string key-value map,
  embedded as an association list; `getItemAsync` / `setItemAsync` /
  `deleteItemAsync` are the three primitives the client calls.
* Each secure-store primitive call may throw.  A call's outcome is drawn
  from an explicit fault schedule (`Faults`, a list of booleans consumed
  one entry per primitive call, `true` = that call throws, exhausted
  schedule = success).  The schedule `[]` is the fault-free execution.
* The identity record is kept in its serialized form throughout:
  `JSON.stringify` / `JSON.parse` round-trip on the record the client
  itself wrote is modelled as the identity on the serialized string.
* The single axios call an operation makes is given to the embedded
  function as an `Except` value (the server's answer), and each operation
  also returns the list of HTTP requests it issued, so that "exactly one
  request" and "no server call" are provable statements.
* JavaScript truthiness matters in two places of the source
  (`if (storedToken && storedUser)` and `detail || 'Login failed'`):
  for a `string | null` value, `null` and the empty string are falsy.
-/

namespace MobileApp

/-- JavaScript truthiness of a `string | null` value: `null` and the empty
string are falsy, every other string is truthy. -/
def jsTruthy : Option String → Bool
  | none => false
  | some v => v != ""

/-- JavaScript `a || fallback` where `a` is an optional string (as in
`error.response?.data?.detail || 'Login failed'`): the fallback is used when
the value is missing or falsy (i.e. the empty string). -/
def jsOrElse : Option String → String → String
  | none, fb => fb
  | some v, fb => if v = "" then fb else v

/-- JavaScript template-literal rendering of a `string | null` value
(`` `Bearer ${token}` `` renders `null` as the string "null"). -/
def jsTemplateStr : Option String → String
  | none => "null"
  | some v => v

/-- The device secure store: a key-value map over strings. -/
abbrev Storage := List (String × String)

/-- Embeds `SecureStore.getItemAsync`: the stored value under a key, if present. -/
def getItemAsync (st : Storage) (k : String) : Option String :=
  (st.find? (fun p => p.1 = k)).map (fun p => p.2)

/-- Embeds `SecureStore.setItemAsync`: store a value under a key, replacing any
previous binding. -/
def setItemAsync (st : Storage) (k v : String) : Storage :=
  (k, v) :: st.filter (fun p => p.1 ≠ k)

/-- Embeds `SecureStore.deleteItemAsync`: remove the binding of a key (a no-op when
the key is absent). -/
def deleteItemAsync (st : Storage) (k : String) : Storage :=
  st.filter (fun p => p.1 ≠ k)

/-- Whether a key is present in the secure store. -/
def hasKey (st : Storage) (k : String) : Bool :=
  st.any (fun p => p.1 = k)

/-- The in-memory React state of `AuthProvider`: the `token` and `user`
state variables (`user` kept in serialized form, see the header). -/
structure Mem where
  token : Option String
  user : Option String
  deriving DecidableEq, Repr

/-- The whole client state: the secure store plus the in-memory state. -/
structure ClientState where
  storage : Storage
  mem : Mem
  deriving DecidableEq, Repr

/-- The state of a fresh install at startup: empty secure store, `token` and
`user` both `null`. -/
def initialState : ClientState :=
  { storage := [], mem := { token := none, user := none } }

/-- A fault schedule for the secure-store primitives: one entry consumed per
primitive call, `true` meaning that call throws; an exhausted schedule means
every further call succeeds, so `[]` is the fault-free execution. -/
abbrev Faults := List Bool

/-- Consume the next fault-schedule entry. -/
def popFault (f : Faults) : Bool × Faults :=
  (f.headD false, f.tail)

/-- An outbound HTTP request, recording its URL (path below the configured
backend base URL) and its `Authorization` header, when one is set. -/
structure HttpRequest where
  url : String
  authorization : Option String
  deriving DecidableEq, Repr

/-- Path of the login endpoint below the backend base URL. -/
def loginUrl : String := "/api/auth/login"

/-- Path of the register endpoint below the backend base URL. -/
def registerUrl : String := "/api/auth/register"

/-- Path of the dashboard stats endpoint below the backend base URL. -/
def statsUrl : String := "/api/dashboard/stats"

/-- The successful body of `/api/auth/login` and `/api/auth/register` as the
client destructures it: `{ access_token, user }`, with the identity record
kept serialized. -/
structure AuthResponse where
  access_token : String
  user : String
  deriving DecidableEq, Repr

/-- A failed axios call as the client inspects it: the optional
`error.response?.data?.detail` string (absent when the failure carried no
response body, e.g. a network or storage error). -/
structure ApiError where
  detail : Option String
  deriving DecidableEq, Repr

/-- Embeds `loadStoredAuth` from `AuthContext.tsx`: read `auth_token` then
`user_data` from the secure store; if both reads succeed and both values are
truthy, adopt them as the in-memory session (`setToken`, then `setUser` on
the parsed record).  Any throw is caught (only logged), leaving the memory
untouched.  No HTTP request is made; the returned list of issued requests is
always empty. -/
def loadStoredAuth (s : ClientState) (f : Faults) : ClientState × List HttpRequest :=
  let (f1, r1) := popFault f
  if f1 then (s, [])
  else
    let storedToken := getItemAsync s.storage "auth_token"
    let (f2, _) := popFault r1
    if f2 then (s, [])
    else
      let storedUser := getItemAsync s.storage "user_data"
      if jsTruthy storedToken && jsTruthy storedUser then
        ({ s with mem := { token := storedToken, user := storedUser } }, [])
      else (s, [])

/-- Embeds `login` from `AuthContext.tsx`.  `resp` is the outcome of the single
axios POST to `/api/auth/login`.  On success the client writes
`auth_token` then `user_data` to the secure store (each write may throw) and
only then updates the in-memory state.  The surrounding try/catch turns any
thrown error into `Error(error.response?.data?.detail || 'Login failed')`;
a storage error carries no `response`, so it surfaces as "Login failed".
Returns (thrown error or unit, final state, issued requests). -/
def login (s : ClientState) (resp : Except ApiError AuthResponse) (f : Faults) :
    Except String Unit × ClientState × List HttpRequest :=
  let req : HttpRequest := { url := loginUrl, authorization := none }
  match resp with
  | .error e => (.error (jsOrElse e.detail "Login failed"), s, [req])
  | .ok r =>
    let (f1, r1) := popFault f
    if f1 then (.error "Login failed", s, [req])
    else
      let s1 : ClientState :=
        { s with storage := setItemAsync s.storage "auth_token" r.access_token }
      let (f2, _) := popFault r1
      if f2 then (.error "Login failed", s1, [req])
      else
        let s2 : ClientState :=
          { s1 with storage := setItemAsync s1.storage "user_data" r.user }
        (.ok (), { s2 with mem := { token := some r.access_token, user := some r.user } }, [req])

/-- Embeds `register` from `AuthContext.tsx`: same shape as `login` but posting to
`/api/auth/register` and falling back to "Registration failed". -/
def register (s : ClientState) (resp : Except ApiError AuthResponse) (f : Faults) :
    Except String Unit × ClientState × List HttpRequest :=
  let req : HttpRequest := { url := registerUrl, authorization := none }
  match resp with
  | .error e => (.error (jsOrElse e.detail "Registration failed"), s, [req])
  | .ok r =>
    let (f1, r1) := popFault f
    if f1 then (.error "Registration failed", s, [req])
    else
      let s1 : ClientState :=
        { s with storage := setItemAsync s.storage "auth_token" r.access_token }
      let (f2, _) := popFault r1
      if f2 then (.error "Registration failed", s1, [req])
      else
        let s2 : ClientState :=
          { s1 with storage := setItemAsync s1.storage "user_data" r.user }
        (.ok (), { s2 with mem := { token := some r.access_token, user := some r.user } }, [req])

/-- Embeds `logout` from `AuthContext.tsx`: delete `auth_token`, delete
`user_data` (each delete may throw), then clear the in-memory state.  The
whole body is inside try/catch whose handler only logs, so `logout` never
throws to its caller: the result's first component is always `.ok ()`. -/
def logout (s : ClientState) (f : Faults) : Except String Unit × ClientState :=
  let (f1, r1) := popFault f
  if f1 then (.ok (), s)
  else
    let s1 : ClientState := { s with storage := deleteItemAsync s.storage "auth_token" }
    let (f2, _) := popFault r1
    if f2 then (.ok (), s1)
    else
      let s2 : ClientState := { s1 with storage := deleteItemAsync s1.storage "user_data" }
      (.ok (), { s2 with mem := { token := none, user := none } })

/-- The eight numeric fields of the dashboard stats response. -/
inductive StatField
  | total_orders
  | pending_orders
  | completed_orders
  | total_products
  | low_stock_products
  | total_vendors
  | pending_payments
  | total_revenue
  deriving DecidableEq, Repr

/-- One stat card of the dashboard grid: its displayed title and the stats
field whose value it renders. -/
structure Card where
  title : String
  field : StatField
  deriving DecidableEq, Repr

/-- The stat cards `DashboardScreen` renders for a given role string, in JSX
order: the Admin/Sales block (Total Orders, Pending Orders, Completed
Orders, Total Products), the Admin-only block (Low Stock Items, Total
Vendors), the all-roles block (Pending Payments, Total Revenue), and the
Buyer block (My Orders and Pending Orders, rendering the order counters). -/
def statCards (role : String) : List Card :=
  (if role = "Admin" ∨ role = "Sales" then
    [{ title := "Total Orders", field := .total_orders },
     { title := "Pending Orders", field := .pending_orders },
     { title := "Completed Orders", field := .completed_orders },
     { title := "Total Products", field := .total_products }]
   else []) ++
  (if role = "Admin" then
    [{ title := "Low Stock Items", field := .low_stock_products },
     { title := "Total Vendors", field := .total_vendors }]
   else []) ++
  (if role = "Admin" ∨ role = "Sales" ∨ role = "Buyer" then
    [{ title := "Pending Payments", field := .pending_payments },
     { title := "Total Revenue", field := .total_revenue }]
   else []) ++
  (if role = "Buyer" then
    [{ title := "My Orders", field := .total_orders },
     { title := "Pending Orders", field := .pending_orders }]
   else [])

/-- Embeds `fetchStats` from `DashboardScreen`: the GET request it issues, with the
`Authorization` header built by the template literal `Bearer ${token}` from
the context's `token` value (`string | null`). -/
def fetchStats (token : Option String) : HttpRequest :=
  { url := statsUrl, authorization := some ("Bearer " ++ jsTemplateStr token) }

/-- The `useEffect` of `DashboardScreen` that runs on mount and whenever the
context token changes: `if (token) fetchStats()`.  Returns the requests it
issues. -/
def dashboardTokenEffect (token : Option String) : List HttpRequest :=
  if jsTruthy token then [fetchStats token] else []

/-- The context value handed out by `AuthProvider` (only the session fields
matter for the claims). -/
structure AuthContextValue where
  token : Option String
  user : Option String
  deriving DecidableEq, Repr

/-- Embeds `useAuth` from `AuthContext.tsx`: returns the context value, throwing
when the hook runs outside an `AuthProvider` (context `undefined`). -/
def useAuth (ctx : Option AuthContextValue) : Except String AuthContextValue :=
  match ctx with
  | none => .error "useAuth must be used within an AuthProvider"
  | some c => .ok c

/-- One client-level operation of the Session Client, with the server answer
an operation depends on baked in. -/
inductive ClientOp
  | login (resp : Except ApiError AuthResponse)
  | register (resp : Except ApiError AuthResponse)
  | logout
  | restore
  deriving Repr

/-- Run one operation under the fault-free schedule, keeping the resulting
client state. -/
def runOp (s : ClientState) : ClientOp → ClientState
  | .login resp => (MobileApp.login s resp []).2.1
  | .register resp => (MobileApp.register s resp []).2.1
  | .logout => (MobileApp.logout s []).2
  | .restore => (MobileApp.loadStoredAuth s []).1

/-- Run a sequence of operations under the fault-free schedule. -/
def runOps (s : ClientState) : List ClientOp → ClientState
  | [] => s
  | op :: ops => runOps (runOp s op) ops

/-- The two secure-store entries are paired: either both present or both
absent. -/
def pairedKeys (st : Storage) : Bool :=
  hasKey st "auth_token" == hasKey st "user_data"

/-! ### Storage lemmas -/

theorem find_key_filter (tl : Storage) (k k2 : String) (h : ¬k = k2) :
    List.find? (fun p => p.1 = k2) (List.filter (fun p => p.1 ≠ k) tl)
      = List.find? (fun p => p.1 = k2) tl := by
  induction tl with
  | nil => rfl
  | cons a tl ih =>
    by_cases hk : a.1 = k
    · have hk2 : ¬a.1 = k2 := by
        rw [hk]
        exact h
      rw [List.filter_cons_of_neg (by simp [hk]), List.find?_cons_of_neg _ (by simp [hk2]), ih]
    · by_cases hk2 : a.1 = k2
      · rw [List.filter_cons_of_pos (by simp [hk]), List.find?_cons_of_pos _ (by simp [hk2]),
          List.find?_cons_of_pos _ (by simp [hk2])]
      · rw [List.filter_cons_of_pos (by simp [hk]), List.find?_cons_of_neg _ (by simp [hk2]),
          List.find?_cons_of_neg _ (by simp [hk2]), ih]

theorem find_key_filter_self (tl : Storage) (k : String) :
    List.find? (fun p => p.1 = k) (List.filter (fun p => p.1 ≠ k) tl) = none := by
  induction tl with
  | nil => rfl
  | cons a tl ih =>
    by_cases hk : a.1 = k
    · rw [List.filter_cons_of_neg (by simp [hk])]
      exact ih
    · rw [List.filter_cons_of_pos (by simp [hk]), List.find?_cons_of_neg _ (by simp [hk])]
      exact ih

theorem getItem_setItem_self (st : Storage) (k v : String) :
    getItemAsync (setItemAsync st k v) k = some v := by
  simp [getItemAsync, setItemAsync, List.find?_cons]

theorem getItem_deleteItem_self (st : Storage) (k : String) :
    getItemAsync (deleteItemAsync st k) k = none := by
  unfold getItemAsync deleteItemAsync
  rw [find_key_filter_self]
  rfl

theorem getItem_deleteItem_ne (st : Storage) (k k2 : String) (h : k2 ≠ k) :
    getItemAsync (deleteItemAsync st k) k2 = getItemAsync st k2 := by
  unfold getItemAsync deleteItemAsync
  rw [find_key_filter st k k2 (fun hx => h hx.symm)]

theorem getItem_setItem_ne (st : Storage) (k k2 v : String) (h : k2 ≠ k) :
    getItemAsync (setItemAsync st k v) k2 = getItemAsync st k2 := by
  have hkk : ¬k = k2 := fun hx => h (Eq.symm hx)
  unfold getItemAsync setItemAsync
  rw [List.find?_cons_of_neg _ (by simp [hkk]), find_key_filter st k k2 hkk]

theorem hasKey_eq_isSome (st : Storage) (k : String) :
    hasKey st k = (getItemAsync st k).isSome := by
  induction st with
  | nil => rfl
  | cons a tl ih =>
    by_cases hk : a.1 = k
    · simp [hasKey, getItemAsync, List.any_cons, List.find?_cons, hk]
    · simpa [hasKey, getItemAsync, List.any_cons, List.find?_cons, hk] using ih

theorem hasKey_setItem_self (st : Storage) (k v : String) :
    hasKey (setItemAsync st k v) k = true := by
  rw [hasKey_eq_isSome, getItem_setItem_self]
  rfl

theorem hasKey_setItem_ne (st : Storage) (k k2 v : String) (h : k2 ≠ k) :
    hasKey (setItemAsync st k v) k2 = hasKey st k2 := by
  rw [hasKey_eq_isSome, getItem_setItem_ne st k k2 v h, ← hasKey_eq_isSome]

theorem hasKey_deleteItem_self (st : Storage) (k : String) :
    hasKey (deleteItemAsync st k) k = false := by
  rw [hasKey_eq_isSome, getItem_deleteItem_self]
  rfl

theorem hasKey_deleteItem_ne (st : Storage) (k k2 : String) (h : k2 ≠ k) :
    hasKey (deleteItemAsync st k) k2 = hasKey st k2 := by
  rw [hasKey_eq_isSome, getItem_deleteItem_ne st k k2 h, ← hasKey_eq_isSome]

/-! ### Normal-form lemmas for the embedded operations

Each operation is characterized by a handful of equations, one per shape of
the fault schedule, so that every claim proof is plain rewriting. -/

theorem login_spec_err (s : ClientState) (e : ApiError) (f : Faults) :
    login s (.error e) f =
      (.error (jsOrElse e.detail "Login failed"), s,
        [{ url := loginUrl, authorization := none }]) := rfl

theorem login_spec_fault1 (s : ClientState) (r : AuthResponse) (f : Faults)
    (h1 : f.headD false = true) :
    login s (.ok r) f =
      (.error "Login failed", s, [{ url := loginUrl, authorization := none }]) := by
  rcases f with _ | ⟨b1, f'⟩
  · simp at h1
  · have hb1 : b1 = true := by simpa using h1
    subst hb1
    rfl

theorem login_spec_fault2 (s : ClientState) (r : AuthResponse) (f : Faults)
    (h1 : f.headD false = false) (h2 : f.tail.headD false = true) :
    login s (.ok r) f =
      (.error "Login failed",
        { s with storage := setItemAsync s.storage "auth_token" r.access_token },
        [{ url := loginUrl, authorization := none }]) := by
  rcases f with _ | ⟨b1, f'⟩
  · simp at h2
  · have hb1 : b1 = false := by simpa using h1
    subst hb1
    rcases f' with _ | ⟨b2, f''⟩
    · simp at h2
    · have hb2 : b2 = true := by simpa using h2
      subst hb2
      rfl

theorem login_spec_ok (s : ClientState) (r : AuthResponse) (f : Faults)
    (h1 : f.headD false = false) (h2 : f.tail.headD false = false) :
    login s (.ok r) f =
      (.ok (),
        { storage := setItemAsync (setItemAsync s.storage "auth_token" r.access_token)
            "user_data" r.user,
          mem := { token := some r.access_token, user := some r.user } },
        [{ url := loginUrl, authorization := none }]) := by
  rcases f with _ | ⟨b1, f'⟩
  · rfl
  · have hb1 : b1 = false := by simpa using h1
    subst hb1
    rcases f' with _ | ⟨b2, f''⟩
    · rfl
    · have hb2 : b2 = false := by simpa using h2
      subst hb2
      rfl

theorem register_spec_err (s : ClientState) (e : ApiError) (f : Faults) :
    register s (.error e) f =
      (.error (jsOrElse e.detail "Registration failed"), s,
        [{ url := registerUrl, authorization := none }]) := rfl

theorem register_spec_fault1 (s : ClientState) (r : AuthResponse) (f : Faults)
    (h1 : f.headD false = true) :
    register s (.ok r) f =
      (.error "Registration failed", s, [{ url := registerUrl, authorization := none }]) := by
  rcases f with _ | ⟨b1, f'⟩
  · simp at h1
  · have hb1 : b1 = true := by simpa using h1
    subst hb1
    rfl

theorem register_spec_fault2 (s : ClientState) (r : AuthResponse) (f : Faults)
    (h1 : f.headD false = false) (h2 : f.tail.headD false = true) :
    register s (.ok r) f =
      (.error "Registration failed",
        { s with storage := setItemAsync s.storage "auth_token" r.access_token },
        [{ url := registerUrl, authorization := none }]) := by
  rcases f with _ | ⟨b1, f'⟩
  · simp at h2
  · have hb1 : b1 = false := by simpa using h1
    subst hb1
    rcases f' with _ | ⟨b2, f''⟩
    · simp at h2
    · have hb2 : b2 = true := by simpa using h2
      subst hb2
      rfl

theorem register_spec_ok (s : ClientState) (r : AuthResponse) (f : Faults)
    (h1 : f.headD false = false) (h2 : f.tail.headD false = false) :
    register s (.ok r) f =
      (.ok (),
        { storage := setItemAsync (setItemAsync s.storage "auth_token" r.access_token)
            "user_data" r.user,
          mem := { token := some r.access_token, user := some r.user } },
        [{ url := registerUrl, authorization := none }]) := by
  rcases f with _ | ⟨b1, f'⟩
  · rfl
  · have hb1 : b1 = false := by simpa using h1
    subst hb1
    rcases f' with _ | ⟨b2, f''⟩
    · rfl
    · have hb2 : b2 = false := by simpa using h2
      subst hb2
      rfl

theorem logout_spec_fault1 (s : ClientState) (f : Faults) (h1 : f.headD false = true) :
    logout s f = (.ok (), s) := by
  rcases f with _ | ⟨b1, f'⟩
  · simp at h1
  · have hb1 : b1 = true := by simpa using h1
    subst hb1
    rfl

theorem logout_spec_fault2 (s : ClientState) (f : Faults)
    (h1 : f.headD false = false) (h2 : f.tail.headD false = true) :
    logout s f = (.ok (), { s with storage := deleteItemAsync s.storage "auth_token" }) := by
  rcases f with _ | ⟨b1, f'⟩
  · simp at h2
  · have hb1 : b1 = false := by simpa using h1
    subst hb1
    rcases f' with _ | ⟨b2, f''⟩
    · simp at h2
    · have hb2 : b2 = true := by simpa using h2
      subst hb2
      rfl

theorem logout_spec_ok (s : ClientState) (f : Faults)
    (h1 : f.headD false = false) (h2 : f.tail.headD false = false) :
    logout s f =
      (.ok (),
        { storage := deleteItemAsync (deleteItemAsync s.storage "auth_token") "user_data",
          mem := { token := none, user := none } }) := by
  rcases f with _ | ⟨b1, f'⟩
  · rfl
  · have hb1 : b1 = false := by simpa using h1
    subst hb1
    rcases f' with _ | ⟨b2, f''⟩
    · rfl
    · have hb2 : b2 = false := by simpa using h2
      subst hb2
      rfl

theorem restore_spec_fault1 (s : ClientState) (f : Faults) (h1 : f.headD false = true) :
    loadStoredAuth s f = (s, []) := by
  rcases f with _ | ⟨b1, f'⟩
  · simp at h1
  · have hb1 : b1 = true := by simpa using h1
    subst hb1
    rfl

theorem restore_spec_fault2 (s : ClientState) (f : Faults)
    (h1 : f.headD false = false) (h2 : f.tail.headD false = true) :
    loadStoredAuth s f = (s, []) := by
  rcases f with _ | ⟨b1, f'⟩
  · simp at h2
  · have hb1 : b1 = false := by simpa using h1
    subst hb1
    rcases f' with _ | ⟨b2, f''⟩
    · simp at h2
    · have hb2 : b2 = true := by simpa using h2
      subst hb2
      rfl

theorem restore_spec_adopt (s : ClientState) (f : Faults)
    (h1 : f.headD false = false) (h2 : f.tail.headD false = false)
    (h : (jsTruthy (getItemAsync s.storage "auth_token")
          && jsTruthy (getItemAsync s.storage "user_data")) = true) :
    loadStoredAuth s f =
      ({ s with mem := { token := getItemAsync s.storage "auth_token",
                         user := getItemAsync s.storage "user_data" } }, []) := by
  rcases f with _ | ⟨b1, f'⟩
  · simp [loadStoredAuth, popFault, h]
  · have hb1 : b1 = false := by simpa using h1
    subst hb1
    rcases f' with _ | ⟨b2, f''⟩
    · simp [loadStoredAuth, popFault, h]
    · have hb2 : b2 = false := by simpa using h2
      subst hb2
      simp [loadStoredAuth, popFault, h]

theorem restore_spec_skip (s : ClientState) (f : Faults)
    (h1 : f.headD false = false) (h2 : f.tail.headD false = false)
    (h : (jsTruthy (getItemAsync s.storage "auth_token")
          && jsTruthy (getItemAsync s.storage "user_data")) = false) :
    loadStoredAuth s f = (s, []) := by
  rcases f with _ | ⟨b1, f'⟩
  · simp [loadStoredAuth, popFault, h]
  · have hb1 : b1 = false := by simpa using h1
    subst hb1
    rcases f' with _ | ⟨b2, f''⟩
    · simp [loadStoredAuth, popFault, h]
    · have hb2 : b2 = false := by simpa using h2
      subst hb2
      simp [loadStoredAuth, popFault, h]

/-! ### C1 -/

/-- C1: on a successful login or register, both secure-store entries are
persisted (holding the returned token and identity record) before and as a
condition of the in-memory update; any persistence-write fault makes the
whole operation throw, and whenever the operation throws the in-memory
session state is unchanged, so no in-memory-only session is ever created. -/
theorem auth_persist_before_memory :
    ∀ (s : ClientState) (r : AuthResponse) (f : Faults),
      ((login s (.ok r) f).1 = .ok () →
        getItemAsync (login s (.ok r) f).2.1.storage "auth_token" = some r.access_token ∧
        getItemAsync (login s (.ok r) f).2.1.storage "user_data" = some r.user ∧
        (login s (.ok r) f).2.1.mem = { token := some r.access_token, user := some r.user }) ∧
      (f.headD false = true ∨ f.tail.headD false = true →
        ∃ msg, (login s (.ok r) f).1 = .error msg) ∧
      (∀ resp msg, (login s resp f).1 = .error msg → (login s resp f).2.1.mem = s.mem) ∧
      ((register s (.ok r) f).1 = .ok () →
        getItemAsync (register s (.ok r) f).2.1.storage "auth_token" = some r.access_token ∧
        getItemAsync (register s (.ok r) f).2.1.storage "user_data" = some r.user ∧
        (register s (.ok r) f).2.1.mem = { token := some r.access_token, user := some r.user }) ∧
      (f.headD false = true ∨ f.tail.headD false = true →
        ∃ msg, (register s (.ok r) f).1 = .error msg) ∧
      (∀ resp msg, (register s resp f).1 = .error msg → (register s resp f).2.1.mem = s.mem) := by
  intro s r f
  have hkey : ∀ (st : Storage),
      getItemAsync (setItemAsync (setItemAsync st "auth_token" r.access_token) "user_data" r.user)
        "auth_token" = some r.access_token := by
    intro st
    rw [getItem_setItem_ne _ _ _ _ (by decide), getItem_setItem_self]
  refine ⟨?_, ?_, ?_, ?_, ?_, ?_⟩
  · cases hf1 : f.headD false with
    | true => rw [login_spec_fault1 s r f hf1]; intro h; exact absurd h (by simp)
    | false =>
      cases hf2 : f.tail.headD false with
      | true => rw [login_spec_fault2 s r f hf1 hf2]; intro h; exact absurd h (by simp)
      | false =>
        rw [login_spec_ok s r f hf1 hf2]
        intro _
        exact ⟨hkey s.storage, getItem_setItem_self _ _ _, rfl⟩
  · rintro (hf1 | hf2)
    · exact ⟨"Login failed", by rw [login_spec_fault1 s r f hf1]⟩
    · cases hf1 : f.headD false with
      | true => exact ⟨"Login failed", by rw [login_spec_fault1 s r f hf1]⟩
      | false => exact ⟨"Login failed", by rw [login_spec_fault2 s r f hf1 hf2]⟩
  · rintro (e | r₂) msg hmsg
    · rw [login_spec_err]
    · cases hf1 : f.headD false with
      | true => rw [login_spec_fault1 s r₂ f hf1]
      | false =>
        cases hf2 : f.tail.headD false with
        | true => rw [login_spec_fault2 s r₂ f hf1 hf2]
        | false => rw [login_spec_ok s r₂ f hf1 hf2] at hmsg; exact absurd hmsg (by simp)
  · cases hf1 : f.headD false with
    | true => rw [register_spec_fault1 s r f hf1]; intro h; exact absurd h (by simp)
    | false =>
      cases hf2 : f.tail.headD false with
      | true => rw [register_spec_fault2 s r f hf1 hf2]; intro h; exact absurd h (by simp)
      | false =>
        rw [register_spec_ok s r f hf1 hf2]
        intro _
        exact ⟨hkey s.storage, getItem_setItem_self _ _ _, rfl⟩
  · rintro (hf1 | hf2)
    · exact ⟨"Registration failed", by rw [register_spec_fault1 s r f hf1]⟩
    · cases hf1 : f.headD false with
      | true => exact ⟨"Registration failed", by rw [register_spec_fault1 s r f hf1]⟩
      | false => exact ⟨"Registration failed", by rw [register_spec_fault2 s r f hf1 hf2]⟩
  · rintro (e | r₂) msg hmsg
    · rw [register_spec_err]
    · cases hf1 : f.headD false with
      | true => rw [register_spec_fault1 s r₂ f hf1]
      | false =>
        cases hf2 : f.tail.headD false with
        | true => rw [register_spec_fault2 s r₂ f hf1 hf2]
        | false => rw [register_spec_ok s r₂ f hf1 hf2] at hmsg; exact absurd hmsg (by simp)

/-- Witness for C1 at concrete inputs: a login whose first persistence write
throws leaves the memory unchanged, and a fault entails a thrown error. -/
theorem auth_persist_before_memory_witness :
    (login initialState (Except.ok { access_token := "t", user := "u" }) [true]).2.1.mem
      = initialState.mem ∧
    (∃ msg, (login initialState (Except.ok { access_token := "t", user := "u" }) [true]).1
      = Except.error msg) ∧
    getItemAsync (login initialState (Except.ok { access_token := "t", user := "u" }) []).2.1.storage
      "auth_token" = some "t" :=
  ⟨(auth_persist_before_memory initialState { access_token := "t", user := "u" } [true]).2.2.1
      (Except.ok { access_token := "t", user := "u" }) "Login failed" rfl,
   (auth_persist_before_memory initialState { access_token := "t", user := "u" } [true]).2.1
      (Or.inl rfl),
   ((auth_persist_before_memory initialState { access_token := "t", user := "u" } []).1
      rfl).1⟩

/-! ### C2 -/

/-- Counterexample to C2 as stated: from the fresh-install state, a login
whose server call succeeds but whose second persistence write throws leaves
the `auth_token` entry present and the `user_data` entry absent — exactly
one of the two entries. -/
theorem storage_pairing_cex :
    hasKey (login initialState (Except.ok { access_token := "t", user := "u" })
      [false, true]).2.1.storage "auth_token" = true ∧
    hasKey (login initialState (Except.ok { access_token := "t", user := "u" })
      [false, true]).2.1.storage "user_data" = false ∧
    pairedKeys (login initialState (Except.ok { access_token := "t", user := "u" })
      [false, true]).2.1.storage = false := by
  decide

theorem restore_storage (s : ClientState) (f : Faults) :
    (loadStoredAuth s f).1.storage = s.storage := by
  cases h1 : f.headD false with
  | true => rw [restore_spec_fault1 s f h1]
  | false =>
    cases h2 : f.tail.headD false with
    | true => rw [restore_spec_fault2 s f h1 h2]
    | false =>
      cases h : (jsTruthy (getItemAsync s.storage "auth_token")
          && jsTruthy (getItemAsync s.storage "user_data")) with
      | true => rw [restore_spec_adopt s f h1 h2 h]
      | false => rw [restore_spec_skip s f h1 h2 h]

theorem pairedKeys_runOp (s : ClientState) (h : pairedKeys s.storage = true) (op : ClientOp) :
    pairedKeys (runOp s op).storage = true := by
  cases op with
  | login resp =>
    rcases resp with e | r
    · show pairedKeys (login s (.error e) []).2.1.storage = true
      rw [login_spec_err]
      exact h
    · show pairedKeys (login s (.ok r) []).2.1.storage = true
      rw [login_spec_ok s r [] rfl rfl]
      unfold pairedKeys
      rw [hasKey_setItem_ne _ _ _ _ (by decide), hasKey_setItem_self, hasKey_setItem_self]
      rfl
  | register resp =>
    rcases resp with e | r
    · show pairedKeys (register s (.error e) []).2.1.storage = true
      rw [register_spec_err]
      exact h
    · show pairedKeys (register s (.ok r) []).2.1.storage = true
      rw [register_spec_ok s r [] rfl rfl]
      unfold pairedKeys
      rw [hasKey_setItem_ne _ _ _ _ (by decide), hasKey_setItem_self, hasKey_setItem_self]
      rfl
  | logout =>
    show pairedKeys (logout s []).2.storage = true
    rw [logout_spec_ok s [] rfl rfl]
    unfold pairedKeys
    rw [hasKey_deleteItem_ne _ _ _ (by decide), hasKey_deleteItem_self, hasKey_deleteItem_self]
    rfl
  | restore =>
    show pairedKeys (loadStoredAuth s []).1.storage = true
    rw [restore_storage]
    exact h

/-- C2 amended: in every execution in which no secure-storage operation
throws, the two secure-storage entries are written together and deleted
together: every state reachable from the fresh install by a sequence of
Session Client operations under the fault-free schedule has either both
entries present or both absent.  (As stated over all executions the claim
fails: a persistence fault between the two writes leaves exactly one entry,
see the counterexample.) -/
theorem storage_pairing_faultfree :
    ∀ ops : List ClientOp, pairedKeys (runOps initialState ops).storage = true := by
  have key : ∀ (ops : List ClientOp) (s : ClientState), pairedKeys s.storage = true →
      pairedKeys (runOps s ops).storage = true := by
    intro ops
    induction ops with
    | nil => intro s hs; exact hs
    | cons op ops ih => intro s hs; exact ih (runOp s op) (pairedKeys_runOp s hs op)
  exact fun ops => key ops initialState rfl

/-! ### C3 -/

/-- C3: the dashboard grid shows each statistics card only to the permitted
roles: the product/vendor management counters (Low Stock Items, Total
Vendors) exactly for Admin; the tenant-wide order/product counters (Total
Orders, Completed Orders, Total Products) exactly for Admin and Sales; the
payment figures (Pending Payments, Total Revenue) exactly for the three
roles; and a Buyer is additionally shown only the own-order counters (My
Orders and Pending Orders, rendering the order counters). -/
theorem dashboard_role_gating :
    (∀ role : String,
      ({ title := "Low Stock Items", field := .low_stock_products } ∈ statCards role
        ↔ role = "Admin") ∧
      ({ title := "Total Vendors", field := .total_vendors } ∈ statCards role
        ↔ role = "Admin") ∧
      ({ title := "Total Orders", field := .total_orders } ∈ statCards role
        ↔ (role = "Admin" ∨ role = "Sales")) ∧
      ({ title := "Completed Orders", field := .completed_orders } ∈ statCards role
        ↔ (role = "Admin" ∨ role = "Sales")) ∧
      ({ title := "Total Products", field := .total_products } ∈ statCards role
        ↔ (role = "Admin" ∨ role = "Sales")) ∧
      ({ title := "Pending Payments", field := .pending_payments } ∈ statCards role
        ↔ (role = "Admin" ∨ role = "Sales" ∨ role = "Buyer")) ∧
      ({ title := "Total Revenue", field := .total_revenue } ∈ statCards role
        ↔ (role = "Admin" ∨ role = "Sales" ∨ role = "Buyer"))) ∧
    statCards "Buyer" =
      [{ title := "Pending Payments", field := .pending_payments },
       { title := "Total Revenue", field := .total_revenue },
       { title := "My Orders", field := .total_orders },
       { title := "Pending Orders", field := .pending_orders }] := by
  constructor
  · intro role
    by_cases hA : role = "Admin"
    · subst hA; decide
    · by_cases hS : role = "Sales"
      · subst hS; decide
      · by_cases hB : role = "Buyer"
        · subst hB; decide
        · simp [statCards, hA, hS, hB]
  · decide

/-- Witness for C3 at a concrete role: the Low Stock Items card is shown to
an Admin. -/
theorem dashboard_role_gating_witness :
    { title := "Low Stock Items", field := .low_stock_products } ∈ statCards "Admin" :=
  ((dashboard_role_gating.1 "Admin").1).mpr rfl

/-! ### C4 -/

/-- Counterexample to C4 as stated: a stored state in which both entries are
present but the token entry is the empty string.  Both entries are present,
yet the startup restore adopts no session (`if (storedToken && storedUser)`
uses JavaScript truthiness, and the empty string is falsy). -/
theorem restore_presence_cex :
    hasKey [("auth_token", ""), ("user_data", "u")] "auth_token" = true ∧
    hasKey [("auth_token", ""), ("user_data", "u")] "user_data" = true ∧
    (loadStoredAuth
      { storage := [("auth_token", ""), ("user_data", "u")],
        mem := { token := none, user := none } } []).1.mem
      = { token := none, user := none } := by
  decide

/-- C4 amended: on startup the client reads the stored token and identity
record without making any server call, and adopts them as the active
session if and only if both are present and non-empty (truthy); if either is
absent or empty, or a read throws, the in-memory token and user remain
null. -/
theorem restore_amended :
    ∀ (st : Storage) (f : Faults),
      (loadStoredAuth { storage := st, mem := { token := none, user := none } } f).2 = [] ∧
      ((jsTruthy (getItemAsync st "auth_token")
          && jsTruthy (getItemAsync st "user_data")) = true →
        (loadStoredAuth { storage := st, mem := { token := none, user := none } } []).1.mem
          = { token := getItemAsync st "auth_token", user := getItemAsync st "user_data" }) ∧
      ((jsTruthy (getItemAsync st "auth_token")
          && jsTruthy (getItemAsync st "user_data")) = false →
        (loadStoredAuth { storage := st, mem := { token := none, user := none } } []).1.mem
          = { token := none, user := none }) ∧
      (f.headD false = true ∨ (f.headD false = false ∧ f.tail.headD false = true) →
        (loadStoredAuth { storage := st, mem := { token := none, user := none } } f).1.mem
          = { token := none, user := none }) := by
  intro st f
  refine ⟨?_, ?_, ?_, ?_⟩
  · cases h1 : f.headD false with
    | true => rw [restore_spec_fault1 _ f h1]
    | false =>
      cases h2 : f.tail.headD false with
      | true => rw [restore_spec_fault2 _ f h1 h2]
      | false =>
        cases h : (jsTruthy (getItemAsync st "auth_token")
            && jsTruthy (getItemAsync st "user_data")) with
        | true => rw [restore_spec_adopt _ f h1 h2 h]
        | false => rw [restore_spec_skip _ f h1 h2 h]
  · intro h
    rw [restore_spec_adopt _ [] rfl rfl h]
  · intro h
    rw [restore_spec_skip _ [] rfl rfl h]
  · rintro (h1 | ⟨h1, h2⟩)
    · rw [restore_spec_fault1 _ f h1]
    · rw [restore_spec_fault2 _ f h1 h2]

/-- Witness for C4 (amended) at a concrete stored state: a non-empty stored
token and identity record are adopted as the session on restore, and a
faulty first read leaves the session null. -/
theorem restore_amended_witness :
    (loadStoredAuth
      { storage := [("auth_token", "t"), ("user_data", "u")],
        mem := { token := none, user := none } } []).1.mem
      = { token := some "t", user := some "u" } ∧
    (loadStoredAuth
      { storage := [("auth_token", "t"), ("user_data", "u")],
        mem := { token := none, user := none } } [true]).1.mem
      = { token := none, user := none } :=
  ⟨(restore_amended [("auth_token", "t"), ("user_data", "u")] []).2.1 (by decide),
   (restore_amended [("auth_token", "t"), ("user_data", "u")] [true]).2.2.2 (Or.inl rfl)⟩

/-! ### C5 -/

theorem restore_of_no_token (st : Storage) (m : Mem)
    (h : getItemAsync st "auth_token" = none) :
    loadStoredAuth { storage := st, mem := m } [] = ({ storage := st, mem := m }, []) := by
  apply restore_spec_skip _ [] rfl rfl
  rw [h]
  rfl

/-- C5: for every client state, a (fault-free) logout followed by the
startup session-restore yields no active session: both storage keys are
absent after logout, and the restore leaves the in-memory token and user
null. -/
theorem logout_then_restore_no_session :
    ∀ s : ClientState,
      hasKey (logout s []).2.storage "auth_token" = false ∧
      hasKey (logout s []).2.storage "user_data" = false ∧
      (loadStoredAuth
        { storage := (logout s []).2.storage,
          mem := { token := none, user := none } } []).1.mem
        = { token := none, user := none } := by
  intro s
  have hdel : (logout s []).2.storage
      = deleteItemAsync (deleteItemAsync s.storage "auth_token") "user_data" := by
    rw [logout_spec_ok s [] rfl rfl]
  have hN : getItemAsync (logout s []).2.storage "auth_token" = none := by
    rw [hdel, getItem_deleteItem_ne _ _ _ (by decide), getItem_deleteItem_self]
  refine ⟨?_, ?_, ?_⟩
  · rw [hdel, hasKey_deleteItem_ne _ _ _ (by decide), hasKey_deleteItem_self]
  · rw [hdel, hasKey_deleteItem_self]
  · rw [restore_of_no_token _ _ hN]

/-! ### C6 -/

theorem deleteItem_idem (st : Storage) (k : String) :
    deleteItemAsync (deleteItemAsync st k) k = deleteItemAsync st k := by
  induction st with
  | nil => rfl
  | cons a tl ih =>
    unfold deleteItemAsync at *
    by_cases hk : a.1 = k
    · rw [List.filter_cons_of_neg (by simp [hk])]
      exact ih
    · rw [List.filter_cons_of_pos (by simp [hk]), List.filter_cons_of_pos (by simp [hk]), ih]

theorem deleteItem_comm (st : Storage) (k k2 : String) :
    deleteItemAsync (deleteItemAsync st k) k2 = deleteItemAsync (deleteItemAsync st k2) k := by
  induction st with
  | nil => rfl
  | cons a tl ih =>
    unfold deleteItemAsync at *
    by_cases hk : a.1 = k
    · by_cases hk2 : a.1 = k2
      · rw [List.filter_cons_of_neg (by simp [hk]), List.filter_cons_of_neg (by simp [hk2])]
        exact ih
      · rw [List.filter_cons_of_neg (by simp [hk]), List.filter_cons_of_pos (by simp [hk2]),
          List.filter_cons_of_neg (by simp [hk])]
        exact ih
    · by_cases hk2 : a.1 = k2
      · rw [List.filter_cons_of_pos (by simp [hk]), List.filter_cons_of_neg (by simp [hk2]),
          List.filter_cons_of_neg (by simp [hk2])]
        exact ih
      · rw [List.filter_cons_of_pos (by simp [hk]), List.filter_cons_of_pos (by simp [hk2]),
          List.filter_cons_of_pos (by simp [hk2]), List.filter_cons_of_pos (by simp [hk]), ih]

theorem delete_pair_absorb (st : Storage) :
    deleteItemAsync (deleteItemAsync (deleteItemAsync (deleteItemAsync st "auth_token")
      "user_data") "auth_token") "user_data"
      = deleteItemAsync (deleteItemAsync st "auth_token") "user_data" := by
  rw [deleteItem_comm (deleteItemAsync st "auth_token") "user_data" "auth_token",
    deleteItem_idem st "auth_token",
    deleteItem_idem (deleteItemAsync st "auth_token") "user_data"]

/-- C6: (fault-free) logout never errors, deletes both persisted values and
then clears the in-memory state, and is idempotent: running it from a state
with nothing stored leaves that state unchanged, and running it twice gives
the same outcome as running it once. -/
theorem logout_idempotent :
    ∀ s : ClientState,
      (logout s []).1 = .ok () ∧
      (logout s []).2.mem = { token := none, user := none } ∧
      hasKey (logout s []).2.storage "auth_token" = false ∧
      hasKey (logout s []).2.storage "user_data" = false ∧
      (logout initialState []).2 = initialState ∧
      logout (logout s []).2 [] = logout s [] := by
  intro s
  refine ⟨?_, ?_, ?_, ?_, by decide, ?_⟩
  · rw [logout_spec_ok s [] rfl rfl]
  · rw [logout_spec_ok s [] rfl rfl]
  · rw [logout_spec_ok s [] rfl rfl, hasKey_deleteItem_ne _ _ _ (by decide),
      hasKey_deleteItem_self]
  · rw [logout_spec_ok s [] rfl rfl, hasKey_deleteItem_self]
  · rw [logout_spec_ok s [] rfl rfl, logout_spec_ok _ [] rfl rfl, delete_pair_absorb]

/-! ### C7 -/

/-- Counterexample to C7 as stated: a failed login whose server response
carries the detail field, but with the empty string as its value.  The
client's `detail || 'Login failed'` treats the empty string as falsy, so the
thrown message is the generic one, not the server's detail. -/
theorem auth_error_message_cex :
    (login initialState (Except.error { detail := some "" }) []).1
      = Except.error "Login failed" ∧
    "Login failed" ≠ "" :=
  ⟨rfl, by decide⟩

/-- C7 amended: a failed login or register throws an error whose message is
exactly the server's detail field when the response carries a non-empty one,
and the generic message ("Login failed" / "Registration failed") when the
detail is absent or empty; and every login/register invocation issues
exactly one HTTP request (no automatic retry). -/
theorem auth_error_surfaced :
    ∀ (s : ClientState) (f : Faults) (e : ApiError),
      (∀ d, e.detail = some d → d ≠ "" →
        (login s (.error e) f).1 = .error d ∧ (register s (.error e) f).1 = .error d) ∧
      (e.detail = none →
        (login s (.error e) f).1 = .error "Login failed" ∧
        (register s (.error e) f).1 = .error "Registration failed") ∧
      (e.detail = some "" →
        (login s (.error e) f).1 = .error "Login failed" ∧
        (register s (.error e) f).1 = .error "Registration failed") ∧
      (∀ resp : Except ApiError AuthResponse,
        (login s resp f).2.2.length = 1 ∧ (register s resp f).2.2.length = 1) := by
  intro s f e
  refine ⟨?_, ?_, ?_, ?_⟩
  · intro d hd hne
    constructor
    · rw [login_spec_err, hd]
      simp [jsOrElse, hne]
    · rw [register_spec_err, hd]
      simp [jsOrElse, hne]
  · intro hd
    constructor
    · rw [login_spec_err, hd]
      rfl
    · rw [register_spec_err, hd]
      rfl
  · intro hd
    constructor
    · rw [login_spec_err, hd]
      simp [jsOrElse]
    · rw [register_spec_err, hd]
      simp [jsOrElse]
  · rintro (e2 | r)
    · exact ⟨by rw [login_spec_err]; rfl, by rw [register_spec_err]; rfl⟩
    · cases h1 : f.headD false with
      | true =>
        refine ⟨?_, ?_⟩
        · rw [login_spec_fault1 s r f h1]
          rfl
        · rw [register_spec_fault1 s r f h1]
          rfl
      | false =>
        cases h2 : f.tail.headD false with
        | true =>
          refine ⟨?_, ?_⟩
          · rw [login_spec_fault2 s r f h1 h2]
            rfl
          · rw [register_spec_fault2 s r f h1 h2]
            rfl
        | false =>
          refine ⟨?_, ?_⟩
          · rw [login_spec_ok s r f h1 h2]
            rfl
          · rw [register_spec_ok s r f h1 h2]
            rfl

/-- Witness for C7 (amended) at a concrete input: a login rejected with a
non-empty detail message throws exactly that message. -/
theorem auth_error_surfaced_witness :
    (login initialState (Except.error { detail := some "Could not validate credentials" }) []).1
      = Except.error "Could not validate credentials" :=
  ((auth_error_surfaced initialState [] { detail := some "Could not validate credentials" }).1
    "Could not validate credentials" rfl (by decide)).1

/-! ### C8 -/

/-- C8: every dashboard-stats request the token effect issues carries the
session token as a bearer credential (`Authorization: Bearer <token>`), and
the effect issues the request only when a token is present (a null token
issues none). -/
theorem stats_request_bearer :
    (∀ (tok : Option String), ∀ r ∈ dashboardTokenEffect tok,
      ∃ t, tok = some t ∧ r.authorization = some ("Bearer " ++ t)) ∧
    dashboardTokenEffect none = [] ∧
    (∀ t : String, t ≠ "" →
      dashboardTokenEffect (some t)
        = [{ url := statsUrl, authorization := some ("Bearer " ++ t) }]) := by
  refine ⟨?_, rfl, ?_⟩
  · intro tok r hr
    rcases tok with _ | t
    · simp [dashboardTokenEffect, jsTruthy] at hr
    · by_cases ht : t = ""
      · subst ht
        simp [dashboardTokenEffect, jsTruthy] at hr
      · refine ⟨t, rfl, ?_⟩
        have heq : dashboardTokenEffect (some t) = [fetchStats (some t)] := by
          simp [dashboardTokenEffect, jsTruthy, ht]
        rw [heq] at hr
        simp at hr
        rw [hr]
        rfl
  · intro t ht
    simp [dashboardTokenEffect, jsTruthy, ht, fetchStats, jsTemplateStr]

/-- Witness for C8 at a concrete token: the effect issues exactly the stats
request with the bearer header. -/
theorem stats_request_bearer_witness :
    dashboardTokenEffect (some "tok")
      = [{ url := statsUrl, authorization := some ("Bearer " ++ "tok") }] :=
  stats_request_bearer.2.2 "tok" (by decide)

/-! ### C9 -/

/-- C9: logout never throws to its caller, whatever the fault schedule; if
deleting either secure-storage entry fails the in-memory session state is
left unchanged, and the memory is cleared exactly when both deletions
complete without error. -/
theorem logout_never_throws :
    ∀ (s : ClientState) (f : Faults),
      (logout s f).1 = .ok () ∧
      (f.headD false = true → (logout s f).2 = s) ∧
      (f.headD false = false → f.tail.headD false = true → (logout s f).2.mem = s.mem) ∧
      (f.headD false = false → f.tail.headD false = false →
        (logout s f).2.mem = { token := none, user := none }) := by
  intro s f
  refine ⟨?_, ?_, ?_, ?_⟩
  · cases h1 : f.headD false with
    | true => rw [logout_spec_fault1 s f h1]
    | false =>
      cases h2 : f.tail.headD false with
      | true => rw [logout_spec_fault2 s f h1 h2]
      | false => rw [logout_spec_ok s f h1 h2]
  · intro h1
    rw [logout_spec_fault1 s f h1]
  · intro h1 h2
    rw [logout_spec_fault2 s f h1 h2]
  · intro h1 h2
    rw [logout_spec_ok s f h1 h2]

/-- Witness for C9 at a concrete input: with the second deletion throwing,
logout still returns normally and the memory is unchanged. -/
theorem logout_never_throws_witness :
    (logout initialState [false, true]).1 = Except.ok () ∧
    (logout initialState [false, true]).2.mem = initialState.mem :=
  ⟨(logout_never_throws initialState [false, true]).1,
   (logout_never_throws initialState [false, true]).2.2.1 rfl rfl⟩

/-! ### C10 -/

/-- C10: `useAuth` throws exactly when the context is undefined (the hook
runs outside an `AuthProvider`), so any successfully obtained auth API came
from a mounted provider's context value. -/
theorem useAuth_requires_provider :
    useAuth none = .error "useAuth must be used within an AuthProvider" ∧
    (∀ (ctx : Option AuthContextValue) (v : AuthContextValue),
      useAuth ctx = .ok v → ctx = some v) ∧
    (∀ c : AuthContextValue, useAuth (some c) = .ok c) := by
  refine ⟨rfl, ?_, fun c => rfl⟩
  rintro (_ | c) v h
  · exact absurd h (by simp [useAuth])
  · simp [useAuth] at h
    rw [h]

/-- Witness for C10 at a concrete context value. -/
theorem useAuth_requires_provider_witness :
    (some { token := some "t", user := some "u" } : Option AuthContextValue)
      = some { token := some "t", user := some "u" } :=
  useAuth_requires_provider.2.1 (some { token := some "t", user := some "u" })
    { token := some "t", user := some "u" } rfl

end MobileApp
